import Mathlib

/-!
Verification of the neural-network layer toolkit (activations, Conv2D layer,
gradient-descent optimizer) against its design specification.

The Python sources are shallowly embedded:
* numpy float64 values are modelled as rationals (`ℚ`); the operations the
  claims exercise (addition, subtraction, multiplication, comparison with 0)
  are exact on the inputs involved;
* a rank-4 numpy array is a `Tensor4` (a shape together with a total value
  function; positions outside the shape are irrelevant and never compared);
* Python exceptions are the `PyErr` type, and fallible code returns
  `Except`; code that mutates local arrays in place is embedded as explicit
  state passing over an environment record whose fields are the local
  variables of the Python function body, so that read-only behaviour of
  inputs is a provable statement rather than a modelling assumption.
-/

/-- Python runtime errors relevant to this code base. -/
inductive PyErr
  /-- TypeError raised by subscripting an `int` (message:
  `'int' object is not subscriptable`). -/
  | intNotSubscriptable
  /-- TypeError raised when a function is called with fewer positional
  arguments than its definition requires. -/
  | missingPositionalArg
  /-- TypeError raised when an operation receives operands of incompatible
  runtime type. -/
  | typeErrorOperand
  /-- ValueError raised by numpy when operand shapes cannot be broadcast
  together, or an array cannot be broadcast into an assignment target. -/
  | broadcastMismatch
  /-- ValueError raised by `np.zeros` on a negative dimension. -/
  | negativeDimensions
  /-- ValueError raised by `Conv2D.initialize_weights` on an unknown
  initialization method (message: `Invalid initialization method`). -/
  | invalidInitializeMethod
  /-- ValueError raised by `get_activation` on an unknown name (message:
  `Activation function not supported`). -/
  | activationNotSupported
  /-- KeyError raised by a dict lookup with an absent key. -/
  | keyError
  /-- IndexError raised by a list subscript out of range. -/
  | indexError
  deriving DecidableEq, Repr

/-- Whether an `Except` computation finished without raising. -/
def isOkE {ε α : Type} : Except ε α → Bool
  | .ok _ => true
  | .error _ => false

/-- A rank-4 numpy array: a shape `(d0, d1, d2, d3)` plus a total value
function. Layers index activation tensors as (batch, height, width, channel)
and the kernel as (kernel_h, kernel_w, in_channels, out_channels). -/
structure Tensor4 where
  dims : Nat × Nat × Nat × Nat
  val : Nat → Nat → Nat → Nat → ℚ

/-- First (batch) dimension. -/
def Tensor4.b (t : Tensor4) : Nat := t.dims.1

/-- Second (height) dimension. -/
def Tensor4.h (t : Tensor4) : Nat := t.dims.2.1

/-- Third (width) dimension. -/
def Tensor4.w (t : Tensor4) : Nat := t.dims.2.2.1

/-- Fourth (channel) dimension. -/
def Tensor4.c (t : Tensor4) : Nat := t.dims.2.2.2

/-- `np.zeros(dims)`. -/
def Tensor4.zeros (dims : Nat × Nat × Nat × Nat) : Tensor4 :=
  { dims := dims, val := fun _ _ _ _ => 0 }

/-- An all-constant tensor (used to build concrete test inputs). -/
def constT (dims : Nat × Nat × Nat × Nat) (q : ℚ) : Tensor4 :=
  { dims := dims, val := fun _ _ _ _ => q }

/-- Placeholder for a Python local that is not yet bound at a given point of
a function body (only stored, never read before being overwritten). -/
def unboundT : Tensor4 := Tensor4.zeros (0, 0, 0, 0)

/-- Elementwise numpy subtraction of same-shaped arrays. -/
def Tensor4.sub (x y : Tensor4) : Tensor4 :=
  { dims := x.dims, val := fun i h w c => x.val i h w c - y.val i h w c }

/-- Multiplication of an array by a scalar. -/
def Tensor4.smul (a : ℚ) (y : Tensor4) : Tensor4 :=
  { dims := y.dims, val := fun i h w c => a * y.val i h w c }

/-- Constructor arguments of a `Conv2D` layer, after the scalar-to-pair
broadcast of `kernel_size`/`stride`/`padding` performed on lines 10-12 of
`convolution2d.py` (an `int` argument becomes the pair `(x, x)`). -/
structure Conv2DCfg where
  in_channels : Nat
  out_channels : Nat
  name : String
  kernel_size : Nat × Nat
  stride : Nat × Nat
  padding : Nat × Nat
  initialize_method : String

/-- `Conv2D.target_shape` (convolution2d.py lines 45-56):
`int((input_shape[i] + 2*padding[i] - kernel_size[i]) / stride[i]) + 1` per
axis. Python `/` is float division and `int(...)` truncates toward zero, so
the quotient is `Int.tdiv` (exact for the magnitudes in scope). Stride
components are required to be ≥ 1 by the layer contract; Python would raise
ZeroDivisionError at stride 0, which no claim exercises. -/
def Conv2D.target_shape (cfg : Conv2DCfg) (input_shape : Nat × Nat) : Int × Int :=
  (Int.tdiv ((input_shape.1 : Int) + 2 * (cfg.padding.1 : Int) - (cfg.kernel_size.1 : Int))
      (cfg.stride.1 : Int) + 1,
   Int.tdiv ((input_shape.2 : Int) + 2 * (cfg.padding.2 : Int) - (cfg.kernel_size.2 : Int))
      (cfg.stride.2 : Int) + 1)

/-- `Conv2D.pad` (lines 58-69): zero-pad the two spatial axes symmetrically
by `padding.1`/`padding.2` on each side; batch and channel axes untouched. -/
def Conv2D.pad (A : Tensor4) (padding : Nat × Nat) : Tensor4 :=
  { dims := (A.b, A.h + 2 * padding.1, A.w + 2 * padding.2, A.c),
    val := fun i h w c =>
      if padding.1 ≤ h ∧ h < padding.1 + A.h ∧ padding.2 ≤ w ∧ w < padding.2 + A.w then
        A.val i (h - padding.1) (w - padding.2) c
      else 0 }

/-- Subscripting a Python `int` (`W[..., c]` after the name `W` has been
rebound to the integer output width) raises TypeError and produces no value;
the arguments are recorded only to mirror the source expression. -/
def intSubscript (n : Nat) (c : Nat) : Except PyErr Empty :=
  .error .intNotSubscriptable

/-- The local variables of `Conv2D.forward` (lines 87-116) that hold numpy
arrays. The kernel is the array unpacked from `self.parameters` into the
Python name `W` on line 97 — before line 102 rebinds that name. -/
structure FwEnv where
  A_prev : Tensor4
  kernel : Tensor4
  bias : Tensor4
  A_prev_pad : Tensor4
  Z : Tensor4

/-- State after executing one iteration of the innermost loop body of
`forward` (lines 114-115). Line 114 binds `a_slice_prev` (a pure slice,
cannot fail); line 115 then evaluates the call arguments left to right and
reaches `W[..., c]` — but `W` was rebound on line 102 by
`H, W = self.target_shape((H_prev, W_prev))` to the integer output width,
so subscripting raises TypeError before `single_step_convolve` is entered
and before `Z[i, h, w, c]` is assigned. -/
def Conv2D.forwardStep (outW : Nat) (idx : Nat × Nat × Nat × Nat) (env : FwEnv) :
    Except (PyErr × FwEnv) FwEnv :=
  match intSubscript outW idx.2.2.2 with
  | .error e => .error (e, env)
  | .ok w_slice => w_slice.elim

/-- Run a sequence of mutating statements over a state; a raise records the
state at the point of the raise and stops. -/
def foldSteps {ι ε σ : Type} (f : ι → σ → Except (ε × σ) σ) : List ι → σ → Except (ε × σ) σ
  | [], s => .ok s
  | i :: rest, s =>
    match f i s with
    | .error e => .error e
    | .ok s1 => foldSteps f rest s1

/-- Iteration order of the four nested loops of `forward`
(batch, out-height, out-width, out-channel). -/
def fwIndices (B H W C : Nat) : List (Nat × Nat × Nat × Nat) :=
  (List.range B).flatMap fun i =>
    (List.range H).flatMap fun h =>
      (List.range W).flatMap fun w =>
        (List.range C).map fun c => (i, h, w, c)

/-- The environment right after line 104 of `forward`: `Z` freshly allocated
as zeros of shape (batch, H, W, C) and `A_prev_pad` a fresh zero-padded copy
of the input. `C` is the fourth component of the kernel's shape (line 99). -/
def Conv2D.fwEnv1 (cfg : Conv2DCfg) (kernel bias A_prev : Tensor4) : FwEnv :=
  { A_prev := A_prev, kernel := kernel, bias := bias,
    A_prev_pad := Conv2D.pad A_prev cfg.padding,
    Z := Tensor4.zeros (A_prev.b, (Conv2D.target_shape cfg (A_prev.h, A_prev.w)).1.toNat,
      (Conv2D.target_shape cfg (A_prev.h, A_prev.w)).2.toNat, kernel.c) }

/-- `Conv2D.forward` (lines 87-116) as a state transformer over its local
arrays. Line 102 computes the output shape; line 103 `np.zeros` raises
ValueError if a computed dimension is negative (at that point `A_prev_pad`
is not yet bound); otherwise the four nested loops run over
(batch, H, W, C) — and every iteration raises TypeError at `W[..., c]`
(see `Conv2D.forwardStep`), so the loop body only completes when it has
zero iterations. -/
def Conv2D.forwardEnv (cfg : Conv2DCfg) (kernel bias A_prev : Tensor4) :
    Except (PyErr × FwEnv) FwEnv :=
  if (Conv2D.target_shape cfg (A_prev.h, A_prev.w)).1 < 0 ∨
      (Conv2D.target_shape cfg (A_prev.h, A_prev.w)).2 < 0 then
    .error (.negativeDimensions,
      { A_prev := A_prev, kernel := kernel, bias := bias,
        A_prev_pad := unboundT, Z := unboundT })
  else
    foldSteps (Conv2D.forwardStep (Conv2D.target_shape cfg (A_prev.h, A_prev.w)).2.toNat)
      (fwIndices A_prev.b (Conv2D.target_shape cfg (A_prev.h, A_prev.w)).1.toNat
        (Conv2D.target_shape cfg (A_prev.h, A_prev.w)).2.toNat kernel.c)
      (Conv2D.fwEnv1 cfg kernel bias A_prev)

/-- `Conv2D.forward` as called by clients: returns `Z`, or the exception.
The layer's stored `self.parameters` list is `[kernel, bias]`. -/
def Conv2D.forward (cfg : Conv2DCfg) (kernel bias A_prev : Tensor4) : Except PyErr Tensor4 :=
  match Conv2D.forwardEnv cfg kernel bias A_prev with
  | .ok env => .ok env.Z
  | .error (e, _) => .error e

/-- Length of the Python slice `a[start : stop]` over an axis of length `n`
(non-negative `start`/`stop`, both clamped to `n`). -/
def pySliceLen (start stop n : Nat) : Nat := min stop n - min start n

/-- Length of the Python slice `a[p : -p]` over an axis of length `n`: the
stop index `-p` denotes `n - p` when `p > 0`, but `-0 == 0`, so at `p = 0`
the slice is `a[0:0]` — empty — rather than the whole axis. -/
def pyCropLen (n p : Nat) : Nat := (if p = 0 then 0 else n - p) - min p n

/-- Index into a broadcast source operand along an axis of source length
`d`: a length-1 axis is repeated, otherwise the index passes through. -/
def bidx (d i : Nat) : Nat := if d = 1 then 0 else i

/-- The local variables of `Conv2D.backward` (lines 118-157) that hold numpy
arrays. `kernel` is the array unpacked from `self.parameters` into the name
`W` on line 130 (rebound to the integer output width on line 135); `dW` is
`np.zeros_like(W)` from line 137, which — because `W` is an `int` by then —
is a 0-d numpy array `array(0)`; it is recorded here as a rank-4 stand-in of
shape (1,1,1,1), adequate because every verified claim about `backward` is
settled before `dW` is read (the loop body raises at line 152, and the runs
that do complete are not quantified over `dW`). -/
structure BwEnv where
  dZ : Tensor4
  A_prev : Tensor4
  kernel : Tensor4
  bias : Tensor4
  dA_prev : Tensor4
  dW : Tensor4
  db : Tensor4
  A_prev_pad : Tensor4
  dA_prev_pad : Tensor4

/-- One iteration of the innermost loop body of `backward` (lines 147-154).
The first statement that can have an effect is line 152,
`da_prev_pad[h_start:h_end, w_start:w_end, :] += W[..., c] * dZ[i, h, w, c]`;
its right-hand side evaluates `W[..., c]` — but `W` was rebound on line 135
by `H, W = self.target_shape((H_prev, W_prev))` to the integer output width,
so subscripting raises TypeError before any accumulation into
`da_prev_pad`, `dW` or `db` happens. -/
def Conv2D.backwardStep (outW : Nat) (idx : Nat × Nat × Nat × Nat) (env : BwEnv) :
    Except (PyErr × BwEnv) BwEnv :=
  match intSubscript outW idx.2.2.2 with
  | .error e => .error (e, env)
  | .ok w_slice => w_slice.elim

/-- Line 155 of `backward`, executed once per batch element `i`:
`dA_prev[i, :, :, :] = da_prev_pad[padding_h:-padding_h, padding_w:-padding_w, :]`.
The right-hand side is the `[p : -p]` crop of the padded workspace
(`pyCropLen`; empty when the padding component is 0); numpy then broadcasts
it into the shape of `dA_prev[i]` — each source axis must equal the target
axis or be 1, else ValueError. -/
def Conv2D.cropAssign (cfg : Conv2DCfg) (i : Nat) (env : BwEnv) :
    Except (PyErr × BwEnv) BwEnv :=
  if (pyCropLen env.dA_prev_pad.h cfg.padding.1 = env.dA_prev.h ∨
        pyCropLen env.dA_prev_pad.h cfg.padding.1 = 1) ∧
      (pyCropLen env.dA_prev_pad.w cfg.padding.2 = env.dA_prev.w ∨
        pyCropLen env.dA_prev_pad.w cfg.padding.2 = 1) ∧
      (env.dA_prev_pad.c = env.dA_prev.c ∨ env.dA_prev_pad.c = 1) then
    .ok { env with
      dA_prev :=
        { dims := env.dA_prev.dims,
          val := fun j h w c =>
            if j = i then
              env.dA_prev_pad.val i
                (min cfg.padding.1 env.dA_prev_pad.h +
                  bidx (pyCropLen env.dA_prev_pad.h cfg.padding.1) h)
                (min cfg.padding.2 env.dA_prev_pad.w +
                  bidx (pyCropLen env.dA_prev_pad.w cfg.padding.2) w)
                (bidx env.dA_prev_pad.c c)
            else env.dA_prev.val j h w c } }
  else .error (.broadcastMismatch, env)

/-- Iteration order of the three inner loops of `backward` for a fixed batch
element `i` (out-height, out-width, out-channel). -/
def hwcIndices (i H W C : Nat) : List (Nat × Nat × Nat × Nat) :=
  (List.range H).flatMap fun h =>
    (List.range W).flatMap fun w =>
      (List.range C).map fun c => (i, h, w, c)

/-- The body of `for i in range(batch_size)` in `backward` (lines 141-155):
the three inner accumulation loops, then the crop assignment of line 155. -/
def Conv2D.backwardBatch (cfg : Conv2DCfg) (outW H W C : Nat) (i : Nat) (env : BwEnv) :
    Except (PyErr × BwEnv) BwEnv :=
  match foldSteps (Conv2D.backwardStep outW) (hwcIndices i H W C) env with
  | .error e => .error e
  | .ok env1 => Conv2D.cropAssign cfg i env1

/-- The environment right after line 140 of `backward`: fresh zero arrays
`dA_prev` (shaped like the input), `dW` (see `BwEnv` on the 0-d
`np.zeros_like(W)` stand-in), `db` (shaped like the bias), and the two
fresh padded workspaces of lines 139-140. -/
def Conv2D.bwEnv1 (cfg : Conv2DCfg) (kernel bias dZ A_prev : Tensor4) : BwEnv :=
  { dZ := dZ, A_prev := A_prev, kernel := kernel, bias := bias,
    dA_prev := Tensor4.zeros A_prev.dims,
    dW := Tensor4.zeros (1, 1, 1, 1),
    db := Tensor4.zeros bias.dims,
    A_prev_pad := Conv2D.pad A_prev cfg.padding,
    dA_prev_pad := Conv2D.pad (Tensor4.zeros A_prev.dims) cfg.padding }

/-- `Conv2D.backward` (lines 118-157) as a state transformer over its local
arrays. `H`/`W` come from `target_shape` on line 135 (a negative value only
makes the ranges empty here — `range` of a negative integer is empty — since
no `np.zeros` sees them in `backward`), and `C` is the fourth component of
the kernel's shape (line 132). -/
def Conv2D.backwardEnv (cfg : Conv2DCfg) (kernel bias dZ A_prev : Tensor4) :
    Except (PyErr × BwEnv) BwEnv :=
  foldSteps
    (Conv2D.backwardBatch cfg (Conv2D.target_shape cfg (A_prev.h, A_prev.w)).2.toNat
      (Conv2D.target_shape cfg (A_prev.h, A_prev.w)).1.toNat
      (Conv2D.target_shape cfg (A_prev.h, A_prev.w)).2.toNat kernel.c)
    (List.range A_prev.b)
    (Conv2D.bwEnv1 cfg kernel bias dZ A_prev)

/-- `Conv2D.backward` as called by clients: returns
`(dA_prev, [dW, db])` (line 156-157), or the exception. -/
def Conv2D.backward (cfg : Conv2DCfg) (kernel bias dZ A_prev : Tensor4) :
    Except PyErr (Tensor4 × List Tensor4) :=
  match Conv2D.backwardEnv cfg kernel bias dZ A_prev with
  | .ok env => .ok (env.dA_prev, [env.dW, env.db])
  | .error (e, _) => .error e

/-- A layer object as the optimizer registry sees it: only its current
`parameters` list is read by `GD.update`. -/
structure PyLayer where
  parameters : List Tensor4

/-- The gradient-descent optimizer `GD` (gradientdescent.py lines 2-11):
a fixed learning rate and a registry mapping layer names to layer objects
(a Python dict, embedded as an association list with unique keys). -/
structure GD where
  learning_rate : ℚ
  layers : List (String × PyLayer)

/-- `GD.update` (lines 13-27): look the layer up by name (`self.layers[name]`
raises KeyError when absent), then for each index in `range(len(grads))`
append `layer.parameters[param_index] - self.learning_rate * grads[param_index]`
(an out-of-range parameter index would raise IndexError). The `epoch`
argument does not occur in the body. -/
def GD.update (gd : GD) (grads : List Tensor4) (name : String) (epoch : Nat) :
    Except PyErr (List Tensor4) :=
  match List.lookup name gd.layers with
  | none => .error .keyError
  | some layer =>
    (List.range grads.length).mapM fun param_index =>
      match layer.parameters.get? param_index, grads.get? param_index with
      | some p, some g => .ok (p.sub (Tensor4.smul gd.learning_rate g))
      | _, _ => .error .indexError

/-- A dynamically-typed Python value passed as a call argument. -/
inductive PyVal
  | tensorList (g : List Tensor4)
  | str (s : String)
  | int (n : Nat)

/-- A bound Python method: the number of positional parameters its `def`
line declares (after `self`), and its body over the received arguments. -/
structure PyMethod (α : Type) where
  arity : Nat
  body : List PyVal → Except PyErr α

/-- Python call semantics for positional arguments: an arity mismatch raises
TypeError (missing/extra positional argument) before the body runs. -/
def PyMethod.call {α : Type} (m : PyMethod α) (args : List PyVal) : Except PyErr α :=
  if args.length = m.arity then m.body args else .error .missingPositionalArg

/-- The bound method `gd.update`: `def update(self, grads, name, epoch)`
declares three positional parameters after `self`. -/
def GD.updateMethod (gd : GD) : PyMethod (List Tensor4) :=
  { arity := 3,
    body := fun args =>
      match args with
      | [.tensorList grads, .str name, .int epoch] => gd.update grads name epoch
      | _ => .error .typeErrorOperand }

/-- A constructed `Conv2D` layer object: its configuration attributes and
its `self.parameters` list (kernel then bias). -/
structure Conv2DLayer where
  cfg : Conv2DCfg
  parameters : List Tensor4

/-- `Conv2D.update_parameters` (convolution2d.py lines 159-166):
`self.parameters = optimizer.update(grads, self.name)` — the optimizer's
update method is called with exactly two positional arguments. -/
def Conv2D.update_parameters (layer : Conv2DLayer) (optimizer : PyMethod (List Tensor4))
    (grads : List Tensor4) : Except PyErr Conv2DLayer :=
  (optimizer.call [.tensorList grads, .str layer.cfg.name]).map
    fun ps => { layer with parameters := ps }

/-- `np.array(dA, copy=True)` (activations.py line 78). -/
def npCopy (t : Tensor4) : Tensor4 := { dims := t.dims, val := t.val }

/-- The boolean mask `Z <= 0` of activations.py line 79. -/
def maskLe0 (Z : Tensor4) (i h w c : Nat) : Bool := Z.val i h w c ≤ 0

/-- Masked assignment `dZ[mask] = 0`: positions where the mask holds become
0, all others keep their value. -/
def Tensor4.maskedZero (t : Tensor4) (mask : Nat → Nat → Nat → Nat → Bool) : Tensor4 :=
  { dims := t.dims,
    val := fun i h w c => if mask i h w c then 0 else t.val i h w c }

/-- `ReLU.backward` (activations.py lines 69-80): copy `dA`, then zero the
copy at every position where `Z <= 0`. -/
def ReLU.backward (dA Z : Tensor4) : Tensor4 :=
  (npCopy dA).maskedZero (maskLe0 Z)

/-- The four activation classes; `get_activation` returns a pair of a fresh
instance and its bound `backward` method, both determined by the chosen
class, so the model returns the class. -/
inductive ActivationKind
  | sigmoid
  | relu
  | tanh
  | linear
  deriving DecidableEq, Repr

/-- `get_activation` (activations.py lines 133-150): dispatch on the name
string; an unrecognized name raises
`ValueError('Activation function not supported')`. -/
def get_activation (activation : String) : Except PyErr ActivationKind :=
  if activation = "sigmoid" then .ok .sigmoid
  else if activation = "relu" then .ok .relu
  else if activation = "tanh" then .ok .tanh
  else if activation = "linear" then .ok .linear
  else .error .activationNotSupported

/-- `Conv2D.initialize_weights` (convolution2d.py lines 16-33). The three
recognized methods return a kernel of shape
(kernel_size.1, kernel_size.2, in_channels, out_channels) filled with
pseudo-random draws; the draws (`np.random.randn`, `np.random.uniform`) and
their scale factors (0.01, sqrt(6/(in+out)), sqrt(2/in)) are abstracted as
the entropy stream `randn` — only the control flow (which method names
succeed and which raise) is in verification scope. The source writes three
separate `if`s with an `else` on the last one, but each recognized branch
returns immediately, so an unrecognized method falls through to the final
`else` and raises `ValueError('Invalid initialization method')`. -/
def Conv2D.initialize_weights (cfg : Conv2DCfg) (randn : Nat → Nat → Nat → Nat → ℚ) :
    Except PyErr Tensor4 :=
  if cfg.initialize_method = "random" then
    .ok { dims := (cfg.kernel_size.1, cfg.kernel_size.2, cfg.in_channels, cfg.out_channels),
          val := fun a b c d => randn a b c d * (1 / 100) }
  else if cfg.initialize_method = "xavier" then
    .ok { dims := (cfg.kernel_size.1, cfg.kernel_size.2, cfg.in_channels, cfg.out_channels),
          val := fun a b c d => randn a b c d }
  else if cfg.initialize_method = "he" then
    .ok { dims := (cfg.kernel_size.1, cfg.kernel_size.2, cfg.in_channels, cfg.out_channels),
          val := fun a b c d => randn a b c d }
  else .error .invalidInitializeMethod

/-- `Conv2D.initialize_bias` (lines 35-43): zeros of shape
(1, 1, 1, out_channels). -/
def Conv2D.initialize_bias (cfg : Conv2DCfg) : Tensor4 :=
  Tensor4.zeros (1, 1, 1, cfg.out_channels)

/-- `Conv2D.__init__` (lines 4-13): after storing the configuration, build
`self.parameters = [self.initialize_weights(), self.initialize_bias()]`;
an unrecognized `initialize_method` makes construction raise from
`initialize_weights`. -/
def Conv2D.init (cfg : Conv2DCfg) (randn : Nat → Nat → Nat → Nat → ℚ) :
    Except PyErr Conv2DLayer :=
  (Conv2D.initialize_weights cfg randn).map
    fun k => { cfg := cfg, parameters := [k, Conv2D.initialize_bias cfg] }

/-- The state reached by a sequence of mutating statements, whether they
completed or stopped at a raise. -/
def outState {ε σ : Type} : Except (ε × σ) σ → σ
  | .ok s => s
  | .error (_, s) => s

/-- The arrays `forward` may only read: the input and the two parameters. -/
def fwReadOnly (env : FwEnv) : Tensor4 × Tensor4 × Tensor4 :=
  (env.A_prev, env.kernel, env.bias)

/-- The arrays `backward` may only read: the output gradient, the input and
the two parameters. -/
def bwReadOnly (env : BwEnv) : Tensor4 × Tensor4 × Tensor4 × Tensor4 :=
  (env.dZ, env.A_prev, env.kernel, env.bias)

/-- Configuration for the channel-validation claim: a layer expecting 2
input channels. -/
def cfgC1 : Conv2DCfg :=
  { in_channels := 2, out_channels := 1, name := "conv_mis",
    kernel_size := (1, 1), stride := (1, 1), padding := (0, 0),
    initialize_method := "random" }

/-- Same layer shape with 1 input channel (matching input below). -/
def cfgC1m : Conv2DCfg :=
  { in_channels := 1, out_channels := 1, name := "conv_match",
    kernel_size := (1, 1), stride := (1, 1), padding := (0, 0),
    initialize_method := "random" }

/-- Kernel of shape (1,1,2,1) for `cfgC1`. -/
def kC1 : Tensor4 := constT (1, 1, 2, 1) 1

/-- Kernel of shape (1,1,1,1) for `cfgC1m`. -/
def kC1m : Tensor4 := constT (1, 1, 1, 1) 1

/-- Bias of shape (1,1,1,1). -/
def bC1 : Tensor4 := constT (1, 1, 1, 1) 0

/-- A 1×1×1×1 input: channel count 1, mismatching `cfgC1.in_channels = 2`. -/
def xOneChan : Tensor4 := constT (1, 1, 1, 1) 1

/-- An input with an empty batch and channel count 5 (mismatching 2). -/
def xEmptyBatch : Tensor4 := constT (0, 4, 4, 5) 1

/-- The end-to-end scenario layer of spec §8: in 1, out 1, kernel 2×2,
stride 1, padding 0. -/
def cfg4 : Conv2DCfg :=
  { in_channels := 1, out_channels := 1, name := "conv_e2e",
    kernel_size := (2, 2), stride := (1, 1), padding := (0, 0),
    initialize_method := "random" }

/-- The fixed kernel `[[1, 0], [0, 1]]` of shape (2,2,1,1). -/
def k4 : Tensor4 :=
  { dims := (2, 2, 1, 1), val := fun a b _ _ => if a = b then 1 else 0 }

/-- The fixed bias 0 of shape (1,1,1,1). -/
def b4 : Tensor4 := constT (1, 1, 1, 1) 0

/-- One 3×3 all-ones image. -/
def x4 : Tensor4 := constT (1, 3, 3, 1) 1

/-- The all-ones output gradient of shape (1,2,2,1). -/
def dZ4 : Tensor4 := constT (1, 2, 2, 1) 1

/-- A configuration whose kernel (4×4) exceeds the 3×3 input with padding
(0,0): the output height/width are 0, so the accumulation loops of
`backward` are empty and execution reaches the line-155 crop. -/
def cfgK4 : Conv2DCfg :=
  { in_channels := 1, out_channels := 1, name := "conv_big",
    kernel_size := (4, 4), stride := (1, 1), padding := (0, 0),
    initialize_method := "random" }

/-- Kernel of shape (4,4,1,1) for `cfgK4`. -/
def kK4 : Tensor4 := constT (4, 4, 1, 1) 1

/-- The (empty) output gradient of shape (1,0,0,1) for `cfgK4` on `x4`. -/
def dZe : Tensor4 := constT (1, 0, 0, 1) 0

/-- Configuration for the output-shape claim: kernel 2×2, stride 2,
padding 0. -/
def cfg215 : Conv2DCfg :=
  { in_channels := 1, out_channels := 1, name := "conv_shape",
    kernel_size := (2, 2), stride := (2, 2), padding := (0, 0),
    initialize_method := "random" }

/-- A 1×1×1×1 tensor holding the constant `q` (optimizer fixtures). -/
def wT (q : ℚ) : Tensor4 := constT (1, 1, 1, 1) q

/-- A registered layer with parameters `[wT 3, wT 4]`. -/
def layerW : PyLayer := { parameters := [wT 3, wT 4] }

/-- A gradient-descent optimizer whose registry holds `layerW` under the
name `conv1`, with learning rate 1/2. -/
def gdW : GD := { learning_rate := 1 / 2, layers := [("conv1", layerW)] }

/-- A constant gradient tensor for the ReLU witness. -/
def tA : Tensor4 := constT (1, 1, 1, 1) 5

/-- A pre-activation tensor that is exactly 0 (the ReLU boundary). -/
def tZ0 : Tensor4 := constT (1, 1, 1, 1) 0

/-- A strictly positive pre-activation tensor. -/
def tZpos : Tensor4 := constT (1, 1, 1, 1) 2

/-- A Conv2D configuration with an unrecognized initialization method. -/
def cfgBogus : Conv2DCfg :=
  { in_channels := 1, out_channels := 1, name := "conv_bad",
    kernel_size := (2, 2), stride := (1, 1), padding := (0, 0),
    initialize_method := "bogus" }

/-- A Conv2D configuration with the recognized method `random`. -/
def cfgRandom : Conv2DCfg :=
  { in_channels := 1, out_channels := 1, name := "conv_ok",
    kernel_size := (2, 2), stride := (1, 1), padding := (0, 0),
    initialize_method := "random" }

/-- A concrete entropy stream for construction fixtures. -/
def randn0 : Nat → Nat → Nat → Nat → ℚ := fun _ _ _ _ => 0

/-!
Helper lemmas: a projection of the state that every statement of a loop
preserves is preserved by the whole loop, whether it completes or raises.
-/

theorem foldSteps_proj {ι ε σ α : Type} (g : σ → α) (f : ι → σ → Except (ε × σ) σ)
    (hf : ∀ i s, g (outState (f i s)) = g s) :
    ∀ (l : List ι) (s : σ), g (outState (foldSteps f l s)) = g s := by
  intro l
  induction l with
  | nil => intro s; rfl
  | cons i rest ih =>
    intro s
    have h1 := hf i s
    cases hfi : f i s with
    | error e =>
      simp only [foldSteps, hfi]
      rw [hfi] at h1
      exact h1
    | ok s1 =>
      simp only [foldSteps, hfi]
      rw [hfi] at h1
      rw [ih s1]
      exact h1

theorem forwardStep_read_only (outW : Nat) (idx : Nat × Nat × Nat × Nat) (env : FwEnv) :
    fwReadOnly (outState (Conv2D.forwardStep outW idx env)) = fwReadOnly env := rfl

theorem backwardStep_read_only (outW : Nat) (idx : Nat × Nat × Nat × Nat) (env : BwEnv) :
    bwReadOnly (outState (Conv2D.backwardStep outW idx env)) = bwReadOnly env := rfl

theorem cropAssign_read_only (cfg : Conv2DCfg) (i : Nat) (env : BwEnv) :
    bwReadOnly (outState (Conv2D.cropAssign cfg i env)) = bwReadOnly env := by
  unfold Conv2D.cropAssign
  split <;> rfl

theorem backwardBatch_read_only (cfg : Conv2DCfg) (outW H W C i : Nat) (env : BwEnv) :
    bwReadOnly (outState (Conv2D.backwardBatch cfg outW H W C i env)) = bwReadOnly env := by
  have hfold := foldSteps_proj bwReadOnly (Conv2D.backwardStep outW)
    (fun j s => backwardStep_read_only outW j s) (hwcIndices i H W C) env
  unfold Conv2D.backwardBatch
  cases hfs : foldSteps (Conv2D.backwardStep outW) (hwcIndices i H W C) env with
  | error e =>
    rw [hfs] at hfold
    exact hfold
  | ok env1 =>
    rw [hfs] at hfold
    rw [cropAssign_read_only cfg i env1]
    exact hfold

theorem forwardEnv_read_only (cfg : Conv2DCfg) (kernel bias A_prev : Tensor4) :
    fwReadOnly (outState (Conv2D.forwardEnv cfg kernel bias A_prev)) = (A_prev, kernel, bias) := by
  unfold Conv2D.forwardEnv
  split
  · rfl
  · have hfold := foldSteps_proj fwReadOnly
      (Conv2D.forwardStep (Conv2D.target_shape cfg (A_prev.h, A_prev.w)).2.toNat)
      (fun j s => forwardStep_read_only (Conv2D.target_shape cfg (A_prev.h, A_prev.w)).2.toNat j s)
      (fwIndices A_prev.b (Conv2D.target_shape cfg (A_prev.h, A_prev.w)).1.toNat
        (Conv2D.target_shape cfg (A_prev.h, A_prev.w)).2.toNat kernel.c)
      (Conv2D.fwEnv1 cfg kernel bias A_prev)
    rw [hfold]
    rfl

theorem backwardEnv_read_only (cfg : Conv2DCfg) (kernel bias dZ A_prev : Tensor4) :
    bwReadOnly (outState (Conv2D.backwardEnv cfg kernel bias dZ A_prev)) =
      (dZ, A_prev, kernel, bias) := by
  have hfold := foldSteps_proj bwReadOnly
    (Conv2D.backwardBatch cfg (Conv2D.target_shape cfg (A_prev.h, A_prev.w)).2.toNat
      (Conv2D.target_shape cfg (A_prev.h, A_prev.w)).1.toNat
      (Conv2D.target_shape cfg (A_prev.h, A_prev.w)).2.toNat kernel.c)
    (fun i s => backwardBatch_read_only cfg
      (Conv2D.target_shape cfg (A_prev.h, A_prev.w)).2.toNat
      (Conv2D.target_shape cfg (A_prev.h, A_prev.w)).1.toNat
      (Conv2D.target_shape cfg (A_prev.h, A_prev.w)).2.toNat kernel.c i s)
    (List.range A_prev.b)
    (Conv2D.bwEnv1 cfg kernel bias dZ A_prev)
  unfold Conv2D.backwardEnv
  rw [hfold]
  rfl

/-- C1: the specification claims that an input whose channel count differs
from the configured `in_channels` makes `Conv2D.forward` fail with a
ShapeMismatch error. The code performs no channel validation at all: the
tuple assignment `H, W = self.target_shape((H_prev, W_prev))` on line 102
rebinds the local name `W` — until then the kernel array — to the integer
output width, so the first loop iteration's `W[..., c]` raises
`TypeError: 'int' object is not subscriptable`. The failure is the same for
a mismatched input (first conjunct) and for a perfectly matching one
(second conjunct), and an input with an empty batch returns an (empty)
output despite a channel mismatch (third conjunct). -/
theorem forward_channel_mismatch_no_shape_check :
    Conv2D.forward cfgC1 kC1 bC1 xOneChan = .error .intNotSubscriptable ∧
    Conv2D.forward cfgC1m kC1m bC1 xOneChan = .error .intNotSubscriptable ∧
    isOkE (Conv2D.forward cfgC1 kC1 bC1 xEmptyBatch) = true :=
  ⟨rfl, rfl, rfl⟩

/-- C2: the specification claims `Conv2D.update_parameters(optimizer, grads)`
succeeds and stores the optimizer's returned parameters. The call site
(line 166) passes two positional arguments, `optimizer.update(grads,
self.name)`, but `GD.update` is declared `def update(self, grads, name,
epoch)`; Python raises `TypeError: update() missing 1 required positional
argument: 'epoch'` before the update rule runs, for every layer, optimizer
state and gradient list. -/
theorem update_parameters_arity_mismatch (layer : Conv2DLayer) (gd : GD)
    (grads : List Tensor4) :
    Conv2D.update_parameters layer (GD.updateMethod gd) grads =
      .error .missingPositionalArg := rfl

/-- C3: the specification claims `backward` returns an input gradient shaped
like the forward input (including at padding (0,0)) and parameter gradients
shaped like kernel and bias. In the code, line 135 rebinds `W` to the
integer output width, so any nonempty accumulation loop raises TypeError at
`W[..., c]` (first conjunct, at the spec's own padding-(0,0) scenario); and
even when the loops are empty so that execution reaches line 155, the
padding-(0,0) crop `da_prev_pad[0:-0, 0:-0, :]` is an empty slice whose
assignment into `dA_prev[i]` raises a broadcast ValueError instead of
stripping zero entries per side (second conjunct). -/
theorem backward_gradient_shape_law_fails :
    Conv2D.backward cfg4 k4 b4 dZ4 x4 = .error .intNotSubscriptable ∧
    Conv2D.backward cfgK4 kK4 b4 dZe x4 = .error .broadcastMismatch :=
  ⟨rfl, rfl⟩

/-- C4: the specification's end-to-end scenario (in 1, out 1, kernel 2×2 set
to [[1,0],[0,1]], stride 1, padding 0, bias 0, one 3×3 all-ones image)
expects a 2×2 all-2.0 forward output and, from an all-1.0 output gradient,
a kernel gradient of all 4.0 with bias gradient 4.0. Because line 102 / 135
rebind `W` to the integer output width, both passes raise
`TypeError: 'int' object is not subscriptable` at `W[..., c]` on the very
first output position instead. -/
theorem end_to_end_scenario_raises :
    Conv2D.forward cfg4 k4 b4 x4 = .error .intNotSubscriptable ∧
    Conv2D.backward cfg4 k4 b4 dZ4 x4 = .error .intNotSubscriptable :=
  ⟨rfl, rfl⟩

/-- C5 counterexample: at input height/width (1, 1) with kernel (2, 2),
stride (2, 2), padding (0, 0), the claimed floor formula gives
`floor((1 - 2) / 2) + 1 = 0` per axis, but `target_shape` — whose `int()`
truncates toward zero — returns (1, 1). -/
theorem target_shape_not_floor_counterexample :
    Conv2D.target_shape cfg215 (1, 1) ≠
      (Int.fdiv ((1 : Int) + 2 * 0 - 2) 2 + 1,
       Int.fdiv ((1 : Int) + 2 * 0 - 2) 2 + 1) := by
  decide

/-- C5 (amended): `target_shape` computes, independently per axis,
`trunc((in_dim + 2*pad_dim - kernel_dim) / stride_dim) + 1` with truncation
toward zero; whenever the numerator is non-negative (kernel_dim ≤ in_dim +
2*pad_dim) this coincides with the claimed floor formula, but for a negative
numerator it exceeds the floor value whenever the stride does not divide the
numerator. -/
theorem target_shape_floor_when_nonneg (cfg : Conv2DCfg) (h w : Nat)
    (hs1 : 1 ≤ cfg.stride.1) (hs2 : 1 ≤ cfg.stride.2)
    (hh : (cfg.kernel_size.1 : Int) ≤ (h : Int) + 2 * (cfg.padding.1 : Int))
    (hw : (cfg.kernel_size.2 : Int) ≤ (w : Int) + 2 * (cfg.padding.2 : Int)) :
    Conv2D.target_shape cfg (h, w) =
      (Int.fdiv ((h : Int) + 2 * (cfg.padding.1 : Int) - (cfg.kernel_size.1 : Int))
          (cfg.stride.1 : Int) + 1,
       Int.fdiv ((w : Int) + 2 * (cfg.padding.2 : Int) - (cfg.kernel_size.2 : Int))
          (cfg.stride.2 : Int) + 1) := by
  have e1 : Int.fdiv ((h : Int) + 2 * (cfg.padding.1 : Int) - (cfg.kernel_size.1 : Int))
      (cfg.stride.1 : Int) =
      Int.tdiv ((h : Int) + 2 * (cfg.padding.1 : Int) - (cfg.kernel_size.1 : Int))
      (cfg.stride.1 : Int) :=
    Int.fdiv_eq_tdiv (by omega) (by omega)
  have e2 : Int.fdiv ((w : Int) + 2 * (cfg.padding.2 : Int) - (cfg.kernel_size.2 : Int))
      (cfg.stride.2 : Int) =
      Int.tdiv ((w : Int) + 2 * (cfg.padding.2 : Int) - (cfg.kernel_size.2 : Int))
      (cfg.stride.2 : Int) :=
    Int.fdiv_eq_tdiv (by omega) (by omega)
  rw [e1, e2]
  rfl

theorem target_shape_floor_when_nonneg_witness :
    Conv2D.target_shape cfg215 (5, 5) = (2, 2) := by
  have h := target_shape_floor_when_nonneg cfg215 5 5 (by decide) (by decide)
    (by decide) (by decide)
  rw [h]
  decide

/-- C6: for a registered layer with parameter list [p0, p1] and gradient
list [g0, g1], `GD.update` returns exactly
[p0 - lr*g0, p1 - lr*g1], computed from the layer's current (pre-update)
parameters as read out of the optimizer's registry. -/
theorem gd_update_law (gd : GD) (name : String) (layer : PyLayer)
    (p0 p1 g0 g1 : Tensor4) (epoch : Nat)
    (hreg : List.lookup name gd.layers = some layer)
    (hparams : layer.parameters = [p0, p1]) :
    GD.update gd [g0, g1] name epoch =
      .ok [p0.sub (Tensor4.smul gd.learning_rate g0),
           p1.sub (Tensor4.smul gd.learning_rate g1)] := by
  unfold GD.update
  rw [hreg]
  simp only [hparams]
  rfl

theorem gd_update_law_witness :
    List.lookup ("conv1") gdW.layers = some layerW ∧
    layerW.parameters = [wT 3, wT 4] ∧
    GD.update gdW [wT 10, wT 20] ("conv1") 7 =
      .ok [(wT 3).sub (Tensor4.smul gdW.learning_rate (wT 10)),
           (wT 4).sub (Tensor4.smul gdW.learning_rate (wT 20))] :=
  ⟨rfl, rfl, gd_update_law gdW ("conv1") layerW (wT 3) (wT 4) (wT 10) (wT 20) 7 rfl rfl⟩

/-- C7: for every configuration, parameter pair and input tensors, both
`forward` and `backward` — embedded as state transformers over all of their
local numpy arrays, including the executions that stop at a raise — leave
the input tensor(s) and the layer's stored kernel and bias exactly as they
were: every assignment in the two bodies targets a freshly allocated
workspace (`Z`, `dA_prev`, `dW`, `db`, the padded copies) and never an
input or a parameter. -/
theorem conv2d_passes_read_only (cfg : Conv2DCfg) (kernel bias A_prev dZ : Tensor4) :
    fwReadOnly (outState (Conv2D.forwardEnv cfg kernel bias A_prev)) =
      (A_prev, kernel, bias) ∧
    bwReadOnly (outState (Conv2D.backwardEnv cfg kernel bias dZ A_prev)) =
      (dZ, A_prev, kernel, bias) :=
  ⟨forwardEnv_read_only cfg kernel bias A_prev,
   backwardEnv_read_only cfg kernel bias dZ A_prev⟩

/-- C8: `ReLU.backward(dA, Z)` equals 0 at every position where `Z ≤ 0`
(the boundary `Z == 0` included, since the mask of line 79 is `Z <= 0`) and
equals `dA` at every position where `Z > 0`. -/
theorem relu_backward_boundary (dA Z : Tensor4) (i h w c : Nat) :
    (Z.val i h w c ≤ 0 → (ReLU.backward dA Z).val i h w c = 0) ∧
    (0 < Z.val i h w c → (ReLU.backward dA Z).val i h w c = dA.val i h w c) := by
  constructor
  · intro hz
    simp [ReLU.backward, Tensor4.maskedZero, npCopy, maskLe0, hz]
  · intro hz
    simp [ReLU.backward, Tensor4.maskedZero, npCopy, maskLe0, not_le.mpr hz]

theorem relu_backward_boundary_witness :
    (ReLU.backward tA tZ0).val 0 0 0 0 = 0 ∧
    (ReLU.backward tA tZpos).val 0 0 0 0 = tA.val 0 0 0 0 :=
  ⟨(relu_backward_boundary tA tZ0 0 0 0 0).1 (by decide),
   (relu_backward_boundary tA tZpos 0 0 0 0).2 (by decide)⟩

/-- C9: `get_activation` succeeds exactly on the names `sigmoid`, `relu`,
`tanh`, `linear` and raises the InvalidArgument-class ValueError
(`Activation function not supported`) on every other string; `Conv2D`
construction succeeds exactly when `initialize_method` is one of `random`,
`xavier`, `he` and raises the InvalidArgument-class ValueError
(`Invalid initialization method`) on every other string. -/
theorem unknown_names_invalid (s : String) (cfg : Conv2DCfg)
    (randn : Nat → Nat → Nat → Nat → ℚ) :
    (s ∉ ["sigmoid", "relu", "tanh", "linear"] →
      get_activation s = .error .activationNotSupported) ∧
    (s ∈ ["sigmoid", "relu", "tanh", "linear"] → isOkE (get_activation s) = true) ∧
    (cfg.initialize_method ∉ ["random", "xavier", "he"] →
      Conv2D.init cfg randn = .error .invalidInitializeMethod) ∧
    (cfg.initialize_method ∈ ["random", "xavier", "he"] →
      isOkE (Conv2D.init cfg randn) = true) := by
  refine ⟨?_, ?_, ?_, ?_⟩
  · intro hs
    simp only [List.mem_cons, List.not_mem_nil, or_false, not_or] at hs
    obtain ⟨h1, h2, h3, h4⟩ := hs
    simp [get_activation, h1, h2, h3, h4]
  · intro hs
    simp only [List.mem_cons, List.not_mem_nil, or_false] at hs
    rcases hs with rfl | rfl | rfl | rfl <;> rfl
  · intro hs
    simp only [List.mem_cons, List.not_mem_nil, or_false, not_or] at hs
    obtain ⟨h1, h2, h3⟩ := hs
    simp [Conv2D.init, Conv2D.initialize_weights, h1, h2, h3, Except.map]
  · intro hs
    simp only [List.mem_cons, List.not_mem_nil, or_false] at hs
    rcases hs with h | h | h <;>
      simp only [Conv2D.init, Conv2D.initialize_weights, h] <;> rfl

theorem unknown_names_invalid_witness :
    get_activation ("bogus") = .error .activationNotSupported ∧
    isOkE (get_activation ("relu")) = true ∧
    Conv2D.init cfgBogus randn0 = .error .invalidInitializeMethod ∧
    isOkE (Conv2D.init cfgRandom randn0) = true :=
  ⟨(unknown_names_invalid ("bogus") cfgBogus randn0).1 (by decide),
   (unknown_names_invalid ("relu") cfgBogus randn0).2.1 (by decide),
   (unknown_names_invalid ("bogus") cfgBogus randn0).2.2.1 (by decide),
   (unknown_names_invalid ("bogus") cfgRandom randn0).2.2.2 (by decide)⟩

/-- C10: the `epoch` argument of `GD.update` does not occur in its body, so
for every registry, gradient list, name and pair of epoch values the two
calls return syntactically the same computation — equal parameter lists on
success and the same error otherwise. -/
theorem gd_update_ignores_epoch (gd : GD) (grads : List Tensor4) (name : String)
    (e1 e2 : Nat) :
    GD.update gd grads name e1 = GD.update gd grads name e2 := rfl
